import Mathlib

/-!
Verification development for the fake-news-detector application
(`fake_news_app.py`).  The application delegates classification to a remote
chat-completion endpoint; the local logic consists of prompt construction,
a bounded retry loop with exponential backoff around the remote call,
response-shape guarding, and article-text extraction from a URL.

External collaborators (the HTTP transport `requests.post`, the JSON parser
`json.loads`, the `newspaper` article fetcher, and the `streamlit` message
sinks) are modelled as environment parameters; the control flow, guards and
arithmetic of the application code are embedded directly.
-/

namespace FakeNewsApp

/-- A JSON value, as produced by the `json` module.  Numbers are modelled as
rationals (covering Python ints and the decimal floats appearing here). -/
inductive Json where
  | null
  | bool (b : Bool)
  | num (q : Rat)
  | str (s : String)
  | arr (xs : List Json)
  | obj (fields : List (String × Json))

/-- Python truthiness of a JSON value: `None`, `False`, `0`, `""`, `[]` and
`\x7b\x7d` are falsy, everything else truthy. -/
def truthy : Json → Bool
  | .null => false
  | .bool b => b
  | .num q => if q = 0 then false else true
  | .str s => !(s.data.isEmpty)
  | .arr xs => !(xs.isEmpty)
  | .obj kvs => !(kvs.isEmpty)

/-- Python string-key indexing `j[k]`.  Only dictionaries support it; a
missing key raises `KeyError` and any other value raises `TypeError`, both
modelled as `.error ()`. -/
def indexStr : Json → String → Except Unit Json
  | .obj kvs, k =>
    match kvs.find? (fun kv => kv.1 == k) with
    | some kv => .ok kv.2
    | none => .error ()
  | _, _ => .error ()

/-- Python integer indexing `j[n]`: lists index positionally, strings yield a
one-character string; everything else (and out-of-range access) raises. -/
def indexNat : Json → Nat → Except Unit Json
  | .arr xs, n =>
    match xs.get? n with
    | some v => .ok v
    | none => .error ()
  | .str s, n =>
    match s.data.get? n with
    | some c => .ok (.str (String.mk [c]))
    | none => .error ()
  | _, _ => .error ()

/-- Whether a JSON value is the string `"choices"` (Python `==` against that
string, as used by list membership). -/
def isStrChoices : Json → Bool
  | .str s => s == "choices"
  | _ => false

/-- Does `needle` occur as a contiguous substring of `hay` (Python
`needle in hay` on strings), over character lists. -/
def listHasSub (needle : List Char) : List Char → Bool
  | [] => needle.isEmpty
  | c :: rest => needle.isPrefixOf (c :: rest) || listHasSub needle rest

/-- Python substring test `needle in hay` for strings. -/
def strHasSub (hay needle : String) : Bool :=
  listHasSub needle.data hay.data

/-- Python `"choices" in result`: key membership for dicts, element membership
for lists, substring test for strings; `TypeError` otherwise. -/
def memChoices : Json → Except Unit Bool
  | .obj kvs => .ok (kvs.any (fun kv => kv.1 == "choices"))
  | .arr xs => .ok (xs.any isStrChoices)
  | .str s => .ok (strHasSub s "choices")
  | _ => .error ()

/-- Evaluation of the guard `result and "choices" in result and
result["choices"]` with Python short-circuiting; `.error ()` marks an
exception raised during evaluation. -/
def guardEval (result : Json) : Except Unit Bool :=
  if truthy result then
    match memChoices result with
    | .error _ => .error ()
    | .ok false => .ok false
    | .ok true =>
      match indexStr result "choices" with
      | .error _ => .error ()
      | .ok c => .ok (truthy c)
  else
    .ok false

/-- The access chain `result["choices"][0]["message"]["content"]`;
`.error ()` marks a raised `KeyError` / `IndexError` / `TypeError`. -/
def extractContent (result : Json) : Except Unit Json :=
  match indexStr result "choices" with
  | .error _ => .error ()
  | .ok c =>
    match indexNat c 0 with
    | .error _ => .error ()
    | .ok c0 =>
      match indexStr c0 "message" with
      | .error _ => .error ()
      | .ok m => indexStr m "content"

/-- The literal dictionary
`\x7b"prediction": "Error", "real_confidence": 0.0, "fake_confidence": 0.0\x7d`
returned by `classify_text_with_api` on every unrecoverable failure. -/
def mkErrorResult : Json :=
  .obj [("prediction", .str "Error"),
        ("real_confidence", .num 0),
        ("fake_confidence", .num 0)]

/-- Outcome of one `requests.post` call: either the transport raised (any
non-`HTTPError` exception) or a response with a status code and a body
arrived. -/
inductive RequestOutcome where
  | transportFailure
  | response (status : Nat) (body : String)

/-- One chat message of the request payload. -/
structure Message where
  role : String
  content : String

/-- The JSON payload posted to the chat-completion endpoint. -/
structure Payload where
  messages : List Message
  model : String
  temperature : Rat
  responseFormat : String

/-- The instruction prompt built by `classify_text_with_api`, embedding the
input text verbatim. -/
def promptFor (text : String) : String :=
  "\n    You are an expert fact-checker. Analyze the following text and classify it as \"True\", \"Fake\", or \"Unverifiable\".\n    Provide a prediction and two confidence scores (from 0.0 to 1.0) for \"real\" and \"fake\" news.\n    \n    Text to analyze: \"" ++ text ++ "\"\n\n    Please respond with a JSON object in the following format. Ensure the response is only the JSON object, with no extra text or markdown formatting.\n    \x7b\n      \"prediction\": \"True\" | \"Fake\" | \"Unverifiable\",\n      \"real_confidence\": number,\n      \"fake_confidence\": number\n    \x7d\n\n    If you cannot confidently classify the text (e.g., it\x27s not a news statement, is too short, or is an opinion), classify it as \"Unverifiable\".\n    "

/-- The request payload: the prompt as a single user message, the fixed model
identifier, temperature 0.1 and a JSON response-format directive. -/
def buildPayload (text : String) : Payload :=
  ⟨[⟨"user", promptFor text⟩], "llama3-8b-8192", 1 / 10, "json_object"⟩

/-- Observable behaviour of one `classify_text_with_api` call: number of
`requests.post` calls made, the `time.sleep` durations in order, the number
of `st.warning` and `st.error` messages surfaced, and the returned value. -/
structure ClassifyTrace where
  attempts : Nat
  sleeps : List Nat
  warnings : Nat
  errors : Nat
  value : Json

/-- Result of processing an HTTP-success body inside the `try` block:
either a value is returned (with the number of error messages emitted on the
way), or an exception was raised and caught, breaking out of the loop. -/
inductive BodyStep where
  | retVal (v : Json) (errs : Nat)
  | exnBreak

/-- Processing after `raise_for_status` did not raise: `response.json()`
(a `loads` application to the body), the truthiness/membership guard, the
content access chain, and `json.loads` on the content string.  Any raised
exception is caught by the generic handler and becomes `.exnBreak`. -/
def processBody (loads : String → Option Json) (body : String) : BodyStep :=
  match loads body with
  | none => .exnBreak
  | some result =>
    match guardEval result with
    | .error _ => .exnBreak
    | .ok false => .retVal mkErrorResult 1
    | .ok true =>
      match extractContent result with
      | .error _ => .exnBreak
      | .ok (.str s) =>
        match loads s with
        | some v => .retVal v 0
        | none => .exnBreak
      | .ok _ => .exnBreak

/-- `retries = 3` from the source. -/
def retries : Nat := 3

/-- The retry loop `for i in range(retries)` of `classify_text_with_api`,
processing the remaining loop indices while accumulating the trace.
`raise_for_status` raises exactly for status codes in [400, 600); a 429
warns and sleeps `2 ** (i + 1)` seconds before the next iteration; any other
HTTP error, a transport failure, or an exception while handling the body
logs an error and breaks; falling off the loop returns the error literal. -/
def classifyAux (loads : String → Option Json) (env : Nat → RequestOutcome) :
    List Nat → Nat → List Nat → Nat → Nat → ClassifyTrace
  | [], att, sl, w, e => ⟨att, sl, w, e, mkErrorResult⟩
  | i :: rest, att, sl, w, e =>
    match env i with
    | .transportFailure => ⟨att + 1, sl, w, e + 1, mkErrorResult⟩
    | .response status body =>
      if 400 ≤ status ∧ status < 600 then
        if status = 429 then
          classifyAux loads env rest (att + 1) (sl ++ [2 ^ (i + 1)]) (w + 1) e
        else
          ⟨att + 1, sl, w, e + 1, mkErrorResult⟩
      else
        match processBody loads body with
        | .retVal v extra => ⟨att + 1, sl, w, e + extra, v⟩
        | .exnBreak => ⟨att + 1, sl, w, e + 1, mkErrorResult⟩

/-- `classify_text_with_api(text)`: builds the payload from the prompt and
runs the bounded retry loop.  `loads` stands for `json.loads` and `post`
for the transport, reacting to the payload on each attempt index. -/
def classify_text_with_api (loads : String → Option Json)
    (post : Payload → Nat → RequestOutcome) (text : String) : ClassifyTrace :=
  classifyAux loads (post (buildPayload text)) (List.range retries) 0 [] 0 0

/-- Outcome of `Article(url).download(); article.parse()`: either the parsed
article text, or an exception whose string rendering is `msg`. -/
inductive FetchOutcome where
  | success (text : String)
  | failure (msg : String)

/-- `extract_text_from_url`: on success the first 2000 characters of the
article text (`article.text[:2000]`), on any exception the tagged error
string. -/
def extract_text_from_url (out : FetchOutcome) : String :=
  match out with
  | .success t => String.mk (t.data.take 2000)
  | .failure m => "Error fetching URL: " ++ m

/-- The URL branch of the analyze flow: extract, then abort (`st.stop`,
returning `none`) when the extracted string contains `"Error"`, otherwise
hand the text to classification (`some`). -/
def analyzeUrl (fetch : FetchOutcome) : Option String :=
  let text := extract_text_from_url fetch
  if strHasSub text "Error" then none else some text

/-- The spec predicate: the value has a `"prediction"` field holding one of
the four enumerated strings. -/
def predIsValid (j : Json) : Bool :=
  match indexStr j "prediction" with
  | .ok (.str s) => s == "True" || s == "Fake" || s == "Unverifiable" || s == "Error"
  | _ => false

/-- A JSON value with no `"choices"` key (non-dictionaries have no keys). -/
def lacksChoicesKey : Json → Bool
  | .obj kvs => !(kvs.any (fun kv => kv.1 == "choices"))
  | _ => true

/-- The value's `"choices"` key maps to an empty list. -/
def choicesIsEmptyList (j : Json) : Prop :=
  indexStr j "choices" = .ok (.arr [])

/-- A well-formed completion body whose first choice's message content is the
string `s`. -/
def responseBody (s : String) : Json :=
  .obj [("choices", .arr [.obj [("message", .obj [("content", .str s)])]])]

/-- The fabricated round-trip result
`\x7b"prediction":"Fake","real_confidence":0.1,"fake_confidence":0.9\x7d`. -/
def fabricatedResult : Json :=
  .obj [("prediction", .str "Fake"),
        ("real_confidence", .num (1 / 10)),
        ("fake_confidence", .num (9 / 10))]

/-- A parser environment under which the remote 200 response carries a
completion whose content parses to a JSON object with an out-of-enum
`"prediction"` value. -/
def enumCexLoads : String → Option Json := fun s =>
  if s = "BODY" then some (responseBody "INNER")
  else if s = "INNER" then some (.obj [("prediction", .str "Maybe")])
  else none

/-- A transport that always answers HTTP 200 with body `"BODY"`. -/
def enumCexPost : Payload → Nat → RequestOutcome := fun _ _ => .response 200 "BODY"

/-- A parser environment under which the completion content parses to the
empty JSON object — valid JSON of the wrong shape. -/
def shapeCexLoads : String → Option Json := fun s =>
  if s = "OUTER" then some (responseBody "EMPTY")
  else if s = "EMPTY" then some (.obj [])
  else none

/-- A transport that always answers HTTP 200 with body `"OUTER"`. -/
def shapeCexPost : Payload → Nat → RequestOutcome := fun _ _ => .response 200 "OUTER"

/-! ## Helper lemmas -/

/-- `range(retries)` enumerates the attempt indices 0, 1, 2. -/
lemma range_retries : List.range retries = [0, 1, 2] := by decide

/-- The guard accepts a well-formed completion body. -/
lemma guard_responseBody (s : String) : guardEval (responseBody s) = .ok true := rfl

/-- The content access chain on a well-formed completion body yields the
content string. -/
lemma extract_responseBody (s : String) :
    extractContent (responseBody s) = .ok (.str s) := rfl

/-- Any value returned from inside the `try` block is either the error
literal (the empty-or-malformed branch) or some output of `json.loads`. -/
lemma processBody_retVal (loads : String → Option Json) (body : String) (v : Json) (extra : Nat)
    (h : processBody loads body = .retVal v extra) :
    v = mkErrorResult ∨ ∃ s, loads s = some v := by
  unfold processBody at h
  split at h
  · exact BodyStep.noConfusion h
  · split at h
    · exact BodyStep.noConfusion h
    · injection h with h1 h2
      exact Or.inl h1.symm
    · split at h
      · exact BodyStep.noConfusion h
      · split at h
        · injection h with h1 h2
          subst h1
          exact Or.inr ⟨_, by assumption⟩
        · exact BodyStep.noConfusion h
      · exact BodyStep.noConfusion h

/-- Whatever the transport and parser do, the retry loop yields either the
error literal or a `json.loads` output, passed through verbatim. -/
lemma classifyAux_value (loads : String → Option Json) (env : Nat → RequestOutcome)
    (l : List Nat) :
    ∀ att sl w e, (classifyAux loads env l att sl w e).value = mkErrorResult ∨
      ∃ s, loads s = some (classifyAux loads env l att sl w e).value := by
  induction l with
  | nil => intro att sl w e; exact Or.inl rfl
  | cons i rest ih =>
    intro att sl w e
    cases henv : env i with
    | transportFailure =>
      refine Or.inl ?_
      simp only [classifyAux, henv]
    | response status body =>
      simp only [classifyAux, henv]
      by_cases hs : 400 ≤ status ∧ status < 600
      · rw [if_pos hs]
        by_cases h429 : status = 429
        · rw [if_pos h429]
          exact ih (att + 1) (sl ++ [2 ^ (i + 1)]) (w + 1) e
        · rw [if_neg h429]
          exact Or.inl rfl
      · rw [if_neg hs]
        cases hp : processBody loads body with
        | exnBreak => exact Or.inl rfl
        | retVal v extra =>
          rcases processBody_retVal loads body v extra hp with h1 | ⟨s, hws⟩
          · exact Or.inl h1
          · exact Or.inr ⟨s, hws⟩

/-- A dictionary lacking the `"choices"` key has no matching entry. -/
lemma any_eq_false_of_lacks (kvs : List (String × Json))
    (h : lacksChoicesKey (.obj kvs) = true) :
    kvs.any (fun kv => kv.1 == "choices") = false := by
  simp only [lacksChoicesKey] at h
  cases hxy : kvs.any (fun kv => kv.1 == "choices")
  · rfl
  · rw [hxy] at h
    exact Bool.noConfusion h

/-- The guard never accepts a falsy body, a body without a `"choices"` key,
or a body whose `"choices"` is the empty list. -/
lemma guardEval_not_true_of (result : Json)
    (h : truthy result = false ∨ lacksChoicesKey result = true ∨ choicesIsEmptyList result) :
    ¬ guardEval result = Except.ok true := by
  intro hg
  unfold guardEval at hg
  by_cases ht : truthy result = true
  · rw [if_pos ht] at hg
    rcases h with h | h | h
    · rw [h] at ht
      exact Bool.noConfusion ht
    · cases result with
      | null => simp [truthy] at ht
      | bool b =>
        cases b
        · simp [truthy] at ht
        · simp only [memChoices] at hg
          exact Except.noConfusion hg
      | num q =>
        simp only [memChoices] at hg
        exact Except.noConfusion hg
      | str s =>
        simp only [memChoices] at hg
        cases hsub : strHasSub s "choices"
        · rw [hsub] at hg
          simp at hg
        · rw [hsub] at hg
          simp only [indexStr] at hg
          exact Except.noConfusion hg
      | arr xs =>
        simp only [memChoices] at hg
        cases hsub : xs.any isStrChoices
        · rw [hsub] at hg
          simp at hg
        · rw [hsub] at hg
          simp only [indexStr] at hg
          exact Except.noConfusion hg
      | obj kvs =>
        have h' := any_eq_false_of_lacks kvs h
        simp only [memChoices, h'] at hg
        simp at hg
    · unfold choicesIsEmptyList at h
      cases hm : memChoices result with
      | error u =>
        rw [hm] at hg
        exact Except.noConfusion hg
      | ok b =>
        cases b
        · rw [hm] at hg
          simp at hg
        · rw [hm] at hg
          rw [h] at hg
          simp [truthy] at hg
  · rw [if_neg ht] at hg
    simp at hg

/-- On an empty or malformed parsed body, the `try` block either takes the
explicit error branch or raises and breaks. -/
lemma processBody_fail_shape (loads : String → Option Json) (body : String) (result : Json)
    (hL : loads body = some result)
    (h : truthy result = false ∨ lacksChoicesKey result = true ∨ choicesIsEmptyList result) :
    processBody loads body = .retVal mkErrorResult 1 ∨ processBody loads body = .exnBreak := by
  simp only [processBody, hL]
  cases hg : guardEval result with
  | error u => right; rfl
  | ok b =>
    cases b
    · left; rfl
    · exact absurd hg (guardEval_not_true_of result h)

/-- Boolean prefixes extend along list append. -/
lemma isPrefixOf_append (n l1 l2 : List Char) (h : n.isPrefixOf l1 = true) :
    n.isPrefixOf (l1 ++ l2) = true := by
  rw [List.isPrefixOf_iff_prefix] at h ⊢
  exact h.trans (l1.prefix_append l2)

/-- A leading match is in particular a substring occurrence. -/
lemma listHasSub_of_pre (needle hay : List Char) (h : needle.isPrefixOf hay = true) :
    listHasSub needle hay = true := by
  cases hay with
  | nil =>
    cases needle with
    | nil => rfl
    | cons c cs =>
      rw [List.isPrefixOf_iff_prefix] at h
      simp at h
  | cons c rest => simp [listHasSub, h]

/-- Every error string produced by `extract_text_from_url` contains the
substring `"Error"`. -/
lemma errorTag_hasSub (m : String) :
    strHasSub ("Error fetching URL: " ++ m) "Error" = true := by
  unfold strHasSub
  rw [show ("Error fetching URL: " ++ m).data = "Error fetching URL: ".data ++ m.data from rfl]
  apply listHasSub_of_pre
  apply isPrefixOf_append
  decide

/-- When every attempt is rate limited, the loop runs all three attempts,
warning and sleeping 2, 4 and 8 seconds, and falls through to the error
literal. -/
lemma all429_trace (loads : String → Option Json) (post : Payload → Nat → RequestOutcome)
    (text : String)
    (h : ∀ i, i < retries → ∃ b, post (buildPayload text) i = .response 429 b) :
    classify_text_with_api loads post text = ⟨3, [2, 4, 8], 3, 0, mkErrorResult⟩ := by
  obtain ⟨b0, h0⟩ := h 0 (by decide)
  obtain ⟨b1, h1⟩ := h 1 (by decide)
  obtain ⟨b2, h2⟩ := h 2 (by decide)
  unfold classify_text_with_api
  rw [range_retries]
  simp [classifyAux, h0, h1, h2]

/-! ## Claim theorems -/

/-- Claim C1, counterexample: with a remote 200 response whose completion
content parses to `\x7b"prediction": "Maybe"\x7d`, `classify_text_with_api`
returns that value verbatim, so the returned prediction field is not one of
the four enumerated values — the claimed enum invariant fails. -/
theorem classify_prediction_enum_cex :
    (classify_text_with_api enumCexLoads enumCexPost "some text").value =
        Json.obj [("prediction", Json.str "Maybe")] ∧
      predIsValid (classify_text_with_api enumCexLoads enumCexPost "some text").value = false :=
  ⟨rfl, rfl⟩

/-- Claim C1, amended: for every input text and every remote-response
outcome, `classify_text_with_api` returns a result (never an exception),
and that result is either exactly the error literal
`\x7bprediction: Error, real_confidence: 0.0, fake_confidence: 0.0\x7d` —
in particular on every unrecoverable failure — or a `json.loads` output
passed through verbatim, whose prediction field is whatever the remote
model supplied and need not be one of the four enumerated values. -/
theorem classify_result_error_or_parsed (loads : String → Option Json)
    (post : Payload → Nat → RequestOutcome) (text : String) :
    (classify_text_with_api loads post text).value = mkErrorResult ∨
      ∃ s, loads s = some (classify_text_with_api loads post text).value :=
  classifyAux_value loads (post (buildPayload text)) (List.range retries) 0 [] 0 0

/-- Claim C2: when the remote endpoint answers HTTP 429 on every request,
`classify_text_with_api` makes exactly 3 attempts, sleeps 2, 4 and 8
seconds, surfaces one warning per attempt, and returns the error result. -/
theorem classify_rate_limited_retry_trace (loads : String → Option Json)
    (post : Payload → Nat → RequestOutcome) (text : String)
    (h : ∀ i, i < retries → ∃ b, post (buildPayload text) i = .response 429 b) :
    classify_text_with_api loads post text = ⟨3, [2, 4, 8], 3, 0, mkErrorResult⟩ :=
  all429_trace loads post text h

/-- Claim C2, witness. -/
theorem classify_rate_limited_retry_trace_witness :
    classify_text_with_api (fun _ => none) (fun _ _ => .response 429 "busy") "sample" =
      ⟨3, [2, 4, 8], 3, 0, mkErrorResult⟩ :=
  classify_rate_limited_retry_trace (fun _ => none) (fun _ _ => .response 429 "busy") "sample"
    (fun _ _ => ⟨"busy", rfl⟩)

/-- Claim C3, counterexample: on a 200 response whose completion content is
the valid JSON text `\x7b\x7d` — missing all three required fields —
`classify_text_with_api` returns that malformed value as-is instead of an
Error result. -/
theorem classify_shape_passthrough_cex :
    (classify_text_with_api shapeCexLoads shapeCexPost "txt").value = Json.obj [] ∧
      (classify_text_with_api shapeCexLoads shapeCexPost "txt").value ≠ mkErrorResult := by
  refine ⟨rfl, ?_⟩
  intro hc
  rw [show (classify_text_with_api shapeCexLoads shapeCexPost "txt").value = Json.obj []
    from rfl] at hc
  simp [mkErrorResult] at hc

/-- Claim C3, amended: on an HTTP 200 response, if parsing the completion
content as JSON fails, `classify_text_with_api` returns the error result on
that attempt; but when the content parses, the parsed value is returned
verbatim with no shape validation, so valid JSON missing the required
fields is returned as-is rather than as an Error result. -/
theorem classify_content_parse_outcome (loads : String → Option Json)
    (post : Payload → Nat → RequestOutcome) (text body : String) (result : Json) (s : String)
    (h0 : post (buildPayload text) 0 = .response 200 body)
    (hL : loads body = some result)
    (hg : guardEval result = .ok true)
    (hx : extractContent result = .ok (.str s)) :
    classify_text_with_api loads post text =
      (match loads s with
       | none => ⟨1, [], 0, 1, mkErrorResult⟩
       | some v => ⟨1, [], 0, 0, v⟩) := by
  unfold classify_text_with_api
  rw [range_retries]
  simp only [classifyAux, h0]
  rw [if_neg (by decide : ¬(400 ≤ 200 ∧ 200 < 600))]
  simp only [processBody, hL, hg, hx]
  cases hls : loads s with
  | none => rfl
  | some v => rfl

/-- Claim C3, witness: the shape-counterexample environment, where the
content parses to the empty object and is passed through unmodified. -/
theorem classify_content_parse_outcome_witness :
    classify_text_with_api shapeCexLoads shapeCexPost "txt" =
      ⟨1, [], 0, 0, Json.obj []⟩ :=
  classify_content_parse_outcome shapeCexLoads shapeCexPost "txt" "OUTER"
    (responseBody "EMPTY") "EMPTY" rfl rfl rfl rfl

/-- Claim C4: on a first-attempt non-429 HTTP error status (anything in
[400, 600) other than 429), and likewise on a first-attempt transport
failure, `classify_text_with_api` makes exactly one attempt, performs no
sleep, surfaces one error, and returns the error result immediately. -/
theorem classify_fatal_single_attempt (loads : String → Option Json)
    (post : Payload → Nat → RequestOutcome) (text : String)
    (h : post (buildPayload text) 0 = .transportFailure ∨
      ∃ status body, post (buildPayload text) 0 = .response status body ∧
        400 ≤ status ∧ status < 600 ∧ status ≠ 429) :
    classify_text_with_api loads post text = ⟨1, [], 0, 1, mkErrorResult⟩ := by
  unfold classify_text_with_api
  rw [range_retries]
  rcases h with h | ⟨status, body, h, h4, h6, hne⟩
  · simp only [classifyAux, h]
  · simp only [classifyAux, h]
    rw [if_pos ⟨h4, h6⟩, if_neg hne]

/-- Claim C4, witness: an HTTP 500 on the first attempt. -/
theorem classify_fatal_single_attempt_witness :
    classify_text_with_api (fun _ => none) (fun _ _ => .response 500 "oops") "sample" =
      ⟨1, [], 0, 1, mkErrorResult⟩ :=
  classify_fatal_single_attempt (fun _ => none) (fun _ _ => .response 500 "oops") "sample"
    (Or.inr ⟨500, "oops", rfl, by decide, by decide, by decide⟩)

/-- Claim C5: on a first-attempt HTTP 200 whose body is not valid JSON, or
whose completion content string is not valid JSON, `classify_text_with_api`
returns the error result after that single attempt, with the exception
caught rather than propagated. -/
theorem classify_invalid_json_single_error (loads : String → Option Json)
    (post : Payload → Nat → RequestOutcome) (text body : String)
    (h0 : post (buildPayload text) 0 = .response 200 body)
    (h : loads body = none ∨
      ∃ result s, loads body = some result ∧ guardEval result = .ok true ∧
        extractContent result = .ok (.str s) ∧ loads s = none) :
    classify_text_with_api loads post text = ⟨1, [], 0, 1, mkErrorResult⟩ := by
  unfold classify_text_with_api
  rw [range_retries]
  simp only [classifyAux, h0]
  rw [if_neg (by decide : ¬(400 ≤ 200 ∧ 200 < 600))]
  rcases h with h | ⟨result, s, hL, hg, hx, hs⟩
  · simp only [processBody, h]
  · simp only [processBody, hL, hg, hx, hs]

/-- Claim C5, witness: a 200 response whose body parses as nothing. -/
theorem classify_invalid_json_single_error_witness :
    classify_text_with_api (fun _ => none) (fun _ _ => .response 200 "not json") "sample" =
      ⟨1, [], 0, 1, mkErrorResult⟩ :=
  classify_invalid_json_single_error (fun _ => none) (fun _ _ => .response 200 "not json")
    "sample" "not json" rfl (Or.inl rfl)

/-- Claim C6: for a fabricated HTTP 200 response whose first completion
content is the JSON text
`\x7b"prediction":"Fake","real_confidence":0.1,"fake_confidence":0.9\x7d`,
`classify_text_with_api` returns exactly that parsed value, unmodified. -/
theorem classify_roundtrip_fabricated (loads : String → Option Json)
    (post : Payload → Nat → RequestOutcome) (text body s : String)
    (h0 : post (buildPayload text) 0 = .response 200 body)
    (hb : loads body = some (responseBody s))
    (hs : loads s = some fabricatedResult) :
    (classify_text_with_api loads post text).value = fabricatedResult := by
  have htr : classify_text_with_api loads post text = ⟨1, [], 0, 0, fabricatedResult⟩ := by
    unfold classify_text_with_api
    rw [range_retries]
    simp [classifyAux, h0, processBody, hb, hs, guard_responseBody, extract_responseBody]
  rw [htr]

/-- Claim C6, witness: a concrete parser and transport realising the
fabricated response. -/
theorem classify_roundtrip_fabricated_witness :
    (classify_text_with_api
        (fun s => if s = "RB" then some (responseBody "RC")
          else if s = "RC" then some fabricatedResult else none)
        (fun _ _ => .response 200 "RB") "sample").value = fabricatedResult :=
  classify_roundtrip_fabricated
    (fun s => if s = "RB" then some (responseBody "RC")
      else if s = "RC" then some fabricatedResult else none)
    (fun _ _ => .response 200 "RB") "sample" "RB" "RC" rfl rfl rfl

/-- Claim C7: `extract_text_from_url` never raises: on success it returns a
prefix of the article text of length at most 2000 characters, and on any
failure it returns the failure description prefixed with
`"Error fetching URL: "`. -/
theorem extract_text_contract :
    (∀ t, (extract_text_from_url (.success t)).data <+: t.data ∧
      (extract_text_from_url (.success t)).length ≤ 2000) ∧
    (∀ m, extract_text_from_url (.failure m) = "Error fetching URL: " ++ m) := by
  constructor
  · intro t
    constructor
    · show t.data.take 2000 <+: t.data
      exact List.take_prefix 2000 t.data
    · show (t.data.take 2000).length ≤ 2000
      rw [List.length_take]
      exact min_le_left _ _
  · intro m
    rfl

/-- Claim C8: the URL branch skips classification exactly when the extracted
string contains the substring `"Error"`; hence every fetch failure skips
classification, but a successfully extracted article whose text contains
the word `"Error"` also misfires and aborts classification. -/
theorem url_abort_iff_error_marker :
    (∀ f, analyzeUrl f = none ↔ strHasSub (extract_text_from_url f) "Error" = true) ∧
    (∀ m, analyzeUrl (.failure m) = none) ∧
    analyzeUrl (.success "officials corrected an Error in the figures") = none := by
  refine ⟨?_, ?_, ?_⟩
  · intro f
    simp only [analyzeUrl]
    cases hb : strHasSub (extract_text_from_url f) "Error"
    · simp [hb]
    · simp [hb]
  · intro m
    simp only [analyzeUrl, extract_text_from_url]
    rw [errorTag_hasSub]
    rfl
  · rfl

/-- Claim C9: on a first-attempt HTTP 200 whose parsed body is falsy, lacks
a `"choices"` key, or maps `"choices"` to an empty list,
`classify_text_with_api` surfaces one user-visible error message and
returns exactly the error result after that single attempt, without
retrying. -/
theorem classify_malformed_success_body (loads : String → Option Json)
    (post : Payload → Nat → RequestOutcome) (text body : String) (result : Json)
    (h0 : post (buildPayload text) 0 = .response 200 body)
    (hL : loads body = some result)
    (hcond : truthy result = false ∨ lacksChoicesKey result = true ∨ choicesIsEmptyList result) :
    classify_text_with_api loads post text = ⟨1, [], 0, 1, mkErrorResult⟩ := by
  unfold classify_text_with_api
  rw [range_retries]
  simp only [classifyAux, h0]
  rw [if_neg (by decide : ¬(400 ≤ 200 ∧ 200 < 600))]
  rcases processBody_fail_shape loads body result hL hcond with hp | hp
  · rw [hp]
  · rw [hp]

/-- Claim C9, witness: a 200 response whose body parses to JSON `null`. -/
theorem classify_malformed_success_body_witness :
    classify_text_with_api (fun _ => some Json.null) (fun _ _ => .response 200 "null") "sample" =
      ⟨1, [], 0, 1, mkErrorResult⟩ :=
  classify_malformed_success_body (fun _ => some Json.null)
    (fun _ _ => .response 200 "null") "sample" "null" Json.null rfl rfl (Or.inl rfl)

/-- Claim C10: when every attempt yields HTTP 429, the loop sleeps after
each of the three attempts including the final one — one sleep per attempt,
delays 2, 4, 8 — for a total delay of 14 seconds before the error result is
returned. -/
theorem classify_backoff_after_final_attempt (loads : String → Option Json)
    (post : Payload → Nat → RequestOutcome) (text : String)
    (h : ∀ i, i < retries → ∃ b, post (buildPayload text) i = .response 429 b) :
    (classify_text_with_api loads post text).sleeps = [2, 4, 8] ∧
      (classify_text_with_api loads post text).sleeps.length =
        (classify_text_with_api loads post text).attempts ∧
      (classify_text_with_api loads post text).sleeps.sum = 14 := by
  rw [all429_trace loads post text h]
  exact ⟨rfl, rfl, rfl⟩

/-- Claim C10, witness. -/
theorem classify_backoff_after_final_attempt_witness :
    (classify_text_with_api (fun _ => none) (fun _ _ => .response 429 "limit") "w").sleeps =
        [2, 4, 8] ∧
      (classify_text_with_api (fun _ => none)
          (fun _ _ => .response 429 "limit") "w").sleeps.length =
        (classify_text_with_api (fun _ => none)
          (fun _ _ => .response 429 "limit") "w").attempts ∧
      (classify_text_with_api (fun _ => none)
          (fun _ _ => .response 429 "limit") "w").sleeps.sum = 14 :=
  classify_backoff_after_final_attempt (fun _ => none) (fun _ _ => .response 429 "limit") "w"
    (fun _ _ => ⟨"limit", rfl⟩)

end FakeNewsApp
